import Mathlib

/-!
Verification of the Rinkel→Salesforce call-correlation engine
(`webhook_server.py`): phone normalization and matching, CDR enrichment
with bounded retries, activity (Task) building, and the two webhook
dispatch paths.

Conventions of the shallow embedding:
* Python strings are Lean `String`s; dictionary fields that may be absent
  are `Option` values; Python truthiness of a string field (absent, `None`
  or `""` are all falsy) is made explicit through `pyTruthyS` / `pyOrSD`.
* Network calls are parameters: the Rinkel CDR endpoint is a function
  `fetch : Nat → Option CDR` (attempt index ↦ parsed response, `none`
  models a raised/HTTP error), and the Salesforce SOQL layer is either a
  function from the LIKE pattern to candidate records or the stored task
  list itself.
* Functions that may or may not hit the store additionally return the
  number of store queries issued, so that query-avoidance properties can
  be stated.
-/

namespace RinkelSF

/-- Python truthiness of an optional string: absent and `""` are falsy. -/
def pyTruthyS : Option String → Bool
  | none => false
  | some s => s ≠ ""

/-- `a.get(k) or d` for string-valued keys: the first operand wins only
when present and non-empty, mirroring the `x or y` idiom. -/
def pyOrSD (a : Option String) (d : String) : String :=
  match a with
  | some s => if s = "" then d else s
  | none => d

/-- `a.get(k) or d` for numeric keys: `0` is falsy in Python. -/
def pyOrNatD (a : Option Nat) (d : Nat) : Nat :=
  match a with
  | some n => if n = 0 then d else n
  | none => d

/-! ### Phone Normalizer (`normalize_phone`, lines 118-123) -/

/-- `re.sub(r"\D", "", phone)`: keep only the digit characters. -/
def digitsOnly (l : List Char) : List Char :=
  l.filter (fun c => c.isDigit)

/-- The country-code rule of `normalize_phone`:
`if digits.startswith("31") and len(digits) >= 11: digits = "0" + digits[2:]`. -/
def normalizeDigits (d : List Char) : List Char :=
  if ['3', '1'] <+: d ∧ 11 ≤ d.length then '0' :: d.drop 2 else d

/-- `normalize_phone` (lines 118-123): strip non-digits, then apply the
NL country-code rule. -/
def normalize_phone (phone : String) : String :=
  ⟨normalizeDigits (digitsOnly phone.data)⟩

/-! ### C4 and C6: properties of the normalizer -/

theorem digitsOnly_all_digit (l : List Char) :
    ∀ c ∈ digitsOnly l, c.isDigit := by
  intro c hc
  exact (List.mem_filter.mp hc).2

theorem digitsOnly_idem (l : List Char) :
    digitsOnly (digitsOnly l) = digitsOnly l := by
  apply List.filter_eq_self.mpr
  intro c hc
  exact (List.mem_filter.mp hc).2

theorem normalizeDigits_all_digit (d : List Char) (hd : ∀ c ∈ d, c.isDigit) :
    ∀ c ∈ normalizeDigits d, c.isDigit := by
  intro c hc
  unfold normalizeDigits at hc
  split at hc
  · rcases List.mem_cons.mp hc with h0 | hdrop
    · subst h0; decide
    · exact hd c (List.mem_of_mem_drop hdrop)
  · exact hd c hc

/-- A spec-side restatement of the normalizer, written from the words of
the spec (strip every non-digit; replace a leading country code on a
≥11-digit string by `"0"`), used to check the source definition against
the claim. -/
def normalize_phone_specside (phone : String) : String :=
  let d : List Char := phone.data.filter Char.isDigit
  if d.length ≥ 11 ∧ d.take 2 = ['3', '1'] then
    ⟨'0' :: d.drop 2⟩
  else
    ⟨d⟩

theorem takeTwoCountryCode (d : List Char) :
    d.take 2 = ['3', '1'] ↔ ['3', '1'] <+: d := by
  constructor
  · intro h
    exact h ▸ List.take_prefix 2 d
  · intro h
    rcases h with ⟨t, ht⟩
    subst ht
    rfl

/-- C4 -- Normalization returns exactly the digits of the input, except
that a digit string beginning `"31"` with at least 11 digits has the
`"31"` prefix replaced by a single `"0"`; an input with no digits
normalizes to `""` (the unmatchable signal) and no error is possible. -/
theorem C4_normalize_phone_algorithm (phone : String) :
    normalize_phone phone = normalize_phone_specside phone
    ∧ ((∀ c ∈ phone.data, ¬ c.isDigit) → normalize_phone phone = "") := by
  constructor
  · unfold normalize_phone normalize_phone_specside normalizeDigits digitsOnly
    by_cases hpre : ['3', '1'] <+: phone.data.filter Char.isDigit
    · by_cases hlen : 11 ≤ (phone.data.filter Char.isDigit).length
      · rw [if_pos ⟨hpre, hlen⟩, if_pos ⟨hlen, (takeTwoCountryCode _).mpr hpre⟩]
      · rw [if_neg (fun h => hlen h.2), if_neg (fun h : _ ∧ _ => hlen h.1)]
    · rw [if_neg (fun h => hpre h.1),
        if_neg (fun h : _ ∧ _ => hpre ((takeTwoCountryCode _).mp h.2))]
  · intro hnone
    have hfil : digitsOnly phone.data = [] := by
      apply List.filter_eq_nil_iff.mpr
      intro c hc
      simpa using hnone c hc
    unfold normalize_phone
    rw [hfil]
    rfl

/-- C4 witness: an input without digits agrees with the spec-side
algorithm and normalizes to the empty (unmatchable) string. -/
theorem C4_normalize_phone_algorithm_witness :
    normalize_phone "a-b c!" = normalize_phone_specside "a-b c!"
    ∧ normalize_phone "a-b c!" = "" :=
  ⟨(C4_normalize_phone_algorithm "a-b c!").1,
   (C4_normalize_phone_algorithm "a-b c!").2 (by decide)⟩

/-- C6 -- Normalization is idempotent: normalizing an already-normalized
number returns it unchanged; the country-code rule never fires a second
time. -/
theorem C6_normalize_phone_idempotent (phone : String) :
    normalize_phone (normalize_phone phone) = normalize_phone phone := by
  unfold normalize_phone
  have hdig : ∀ c ∈ normalizeDigits (digitsOnly phone.data), c.isDigit :=
    normalizeDigits_all_digit _ (digitsOnly_all_digit _)
  have hfix : digitsOnly (normalizeDigits (digitsOnly phone.data))
      = normalizeDigits (digitsOnly phone.data) :=
    List.filter_eq_self.mpr hdig
  have hdata : (String.mk (normalizeDigits (digitsOnly phone.data))).data
      = normalizeDigits (digitsOnly phone.data) := rfl
  rw [hdata, hfix]
  -- it remains to show the rule does not fire on an already-normalized list
  set d := digitsOnly phone.data with hd
  unfold normalizeDigits
  by_cases h : ['3', '1'] <+: d ∧ 11 ≤ d.length
  · rw [if_pos h]
    have hnot : ¬ (['3', '1'] <+: ('0' :: d.drop 2) ∧ 11 ≤ ('0' :: d.drop 2).length) := by
      rintro ⟨⟨t, ht⟩, -⟩
      simp at ht
    rw [if_neg hnot]
  · rw [if_neg h, if_neg h]

/-! ### Candidate Matcher (`build_like_pattern`, `find_weborders_by_phone`,
lines 126-178) -/

/-- `build_like_pattern` (lines 126-133): wildcard between every digit of
the last 9 digits (`phone_digits[-9:]`). -/
def build_like_pattern (phone_digits : String) : String :=
  let significant : List Char :=
    if 9 ≤ phone_digits.data.length then
      phone_digits.data.drop (phone_digits.data.length - 9)
    else phone_digits.data
  "%" ++ String.intercalate "%" (significant.map String.singleton) ++ "%"

/-- A WebOrder row as returned by the SOQL query: `Id`, `Name` and the
configured phone field (which may be null, hence `Option`). -/
structure WebOrderRecord where
  id : String
  name : String
  phoneField : Option String
  deriving DecidableEq, Repr

/-- The in-process narrowing loop of `find_weborders_by_phone`
(lines 162-170): keep the `Id` of a candidate when its stored phone field
normalizes to the queried digits, deduplicating via `seen_ids`. -/
def narrowWebOrders (phone_digits : String) :
    List WebOrderRecord → List String → List String
  | [], _ => []
  | record :: rest, seen_ids =>
    let stored_digits := normalize_phone (record.phoneField.getD "")
    if stored_digits = phone_digits then
      if record.id ∈ seen_ids then
        narrowWebOrders phone_digits rest seen_ids
      else
        record.id :: narrowWebOrders phone_digits rest (record.id :: seen_ids)
    else
      narrowWebOrders phone_digits rest seen_ids

/-- `find_weborders_by_phone` (lines 136-178).  The SOQL layer is the
function `query` from the LIKE pattern to the candidate rows (the
`ORDER BY ... LIMIT 200` shaping and the quote-escaping — a no-op on a
digits-and-percent pattern — belong to the store side of that function).
The second component counts store queries issued. -/
def find_weborders_by_phone (query : String → List WebOrderRecord)
    (phone : String) : List String × Nat :=
  let phone_digits := normalize_phone phone
  if phone_digits = "" then ([], 0)
  else
    let like_pattern := build_like_pattern phone_digits
    let candidates := query like_pattern
    (narrowWebOrders phone_digits candidates [], 1)

theorem mem_narrowWebOrders (pd : String) (cs : List WebOrderRecord)
    (seen : List String) (i : String) :
    i ∈ narrowWebOrders pd cs seen ↔
      i ∉ seen ∧ ∃ r ∈ cs, r.id = i ∧ normalize_phone (r.phoneField.getD "") = pd := by
  induction cs generalizing seen with
  | nil => simp [narrowWebOrders]
  | cons r rest ih =>
    unfold narrowWebOrders
    by_cases hmatch : normalize_phone (r.phoneField.getD "") = pd
    · rw [if_pos hmatch]
      by_cases hseen : r.id ∈ seen
      · rw [if_pos hseen, ih]
        constructor
        · rintro ⟨hni, w, hw, hwi, hwn⟩
          exact ⟨hni, w, List.mem_cons_of_mem _ hw, hwi, hwn⟩
        · rintro ⟨hni, w, hw, hwi, hwn⟩
          rcases List.mem_cons.mp hw with h0 | h0
          · exact absurd (by rw [← hwi, h0]; exact hseen) hni
          · exact ⟨hni, w, h0, hwi, hwn⟩
      · rw [if_neg hseen]
        rw [List.mem_cons, ih]
        constructor
        · rintro (h0 | ⟨hni, w, hw, hwi, hwn⟩)
          · subst h0
            exact ⟨hseen, r, List.mem_cons_self _ _, rfl, hmatch⟩
          · exact ⟨fun hmem => hni (List.mem_cons_of_mem _ hmem),
              w, List.mem_cons_of_mem _ hw, hwi, hwn⟩
        · rintro ⟨hni, w, hw, hwi, hwn⟩
          by_cases hir : i = r.id
          · exact Or.inl hir
          · refine Or.inr ⟨?_, w, ?_, hwi, hwn⟩
            · intro hmem
              rcases List.mem_cons.mp hmem with h0 | h0
              · exact hir h0
              · exact hni h0
            · rcases List.mem_cons.mp hw with h0 | h0
              · exact absurd (h0 ▸ hwi).symm hir
              · exact h0
    · rw [if_neg hmatch, ih]
      constructor
      · rintro ⟨hni, w, hw, hwi, hwn⟩
        exact ⟨hni, w, List.mem_cons_of_mem _ hw, hwi, hwn⟩
      · rintro ⟨hni, w, hw, hwi, hwn⟩
        rcases List.mem_cons.mp hw with h0 | h0
        · exact absurd (h0 ▸ hwn) hmatch
        · exact ⟨hni, w, h0, hwi, hwn⟩

/-- C1 (counterexample) -- a phone whose normalized form has only 5
digits still issues one store query and can return a non-empty candidate
set: the source guards only against an empty normalized form, there is no
minimum-length check. -/
theorem C1_short_query_counterexample :
    (normalize_phone "12345").data.length = 5
    ∧ (find_weborders_by_phone
        (fun _ => [{ id := "WO1", name := "W", phoneField := some "1 23 45" }])
        "12345").2 = 1
    ∧ (find_weborders_by_phone
        (fun _ => [{ id := "WO1", name := "W", phoneField := some "1 23 45" }])
        "12345").1 = ["WO1"] := by
  refine ⟨rfl, rfl, ?_⟩
  decide

/-- C1 (amended) -- the matcher skips the store query and returns the
empty candidate set exactly when the normalized phone is empty; any
non-empty normalized phone, however short, issues exactly one store
query. -/
theorem C1_amended_empty_guard (query : String → List WebOrderRecord)
    (phone : String) :
    ((find_weborders_by_phone query phone).2 = 0
        ∧ (find_weborders_by_phone query phone).1 = [])
      ↔ normalize_phone phone = "" := by
  unfold find_weborders_by_phone
  by_cases h : normalize_phone phone = ""
  · simp [h]
  · simp [h]

/-- C5 -- the in-process narrowing keeps exactly the identifiers of
candidates whose stored phone field normalizes to the queried digits, and
two inputs with the same normalized form produce identical matcher
results against the same store. -/
theorem C5_matcher_exact_and_format_independent
    (query : String → List WebOrderRecord) (cs : List WebOrderRecord)
    (p1 p2 i : String) (h : normalize_phone p1 = normalize_phone p2) :
    (i ∈ narrowWebOrders (normalize_phone p1) cs [] ↔
      ∃ r ∈ cs, r.id = i ∧ normalize_phone (r.phoneField.getD "") = normalize_phone p1)
    ∧ find_weborders_by_phone query p1 = find_weborders_by_phone query p2 := by
  constructor
  · simpa using mem_narrowWebOrders (normalize_phone p1) cs [] i
  · unfold find_weborders_by_phone
    rw [h]

/-- C5 witness: `"+31 6 - 53233740 (Kristel)"` and `"0653233740"`
normalize identically, so the matcher treats them identically; the
narrowing keeps exactly the matching record id. -/
theorem C5_matcher_exact_and_format_independent_witness :
    ("WO9" ∈ narrowWebOrders (normalize_phone "+31 6 - 53233740 (Kristel)")
        [{ id := "WO9", name := "K", phoneField := some "06 53233740" }] [] ↔
      ∃ r ∈ [({ id := "WO9", name := "K", phoneField := some "06 53233740" } : WebOrderRecord)],
        r.id = "WO9" ∧ normalize_phone (r.phoneField.getD "")
          = normalize_phone "+31 6 - 53233740 (Kristel)")
    ∧ find_weborders_by_phone (fun _ => []) "+31 6 - 53233740 (Kristel)"
      = find_weborders_by_phone (fun _ => []) "0653233740" :=
  C5_matcher_exact_and_format_independent (fun _ => [])
    [{ id := "WO9", name := "K", phoneField := some "06 53233740" }]
    "+31 6 - 53233740 (Kristel)" "0653233740" "WO9" (by decide)

/-! ### Eventually-Consistent Fetcher (`enrich_data_from_cdr`, lines 51-105) -/

/-- The `externalNumber` sub-object of a CDR response. -/
structure ExternalNumber where
  e164 : Option String
  anonymous : Bool
  localized : Option String
  deriving DecidableEq, Repr

/-- The `user` sub-object (`some` models a present, non-empty dict). -/
structure CdrUser where
  fullName : Option String
  deriving DecidableEq, Repr

/-- The `internalNumber` sub-object. -/
structure InternalNumber where
  localizedNumber : Option String
  number : Option String
  deriving DecidableEq, Repr

/-- The `callRecording` sub-object. -/
structure CallRecording where
  playUrl : Option String
  deriving DecidableEq, Repr

/-- The parsed `data` object of a call-detail-record response. -/
structure CDR where
  externalNumber : Option ExternalNumber
  direction : Option String
  duration : Option Nat
  user : Option CdrUser
  internalNumber : Option InternalNumber
  callRecording : Option CallRecording
  date : Option String
  deriving DecidableEq, Repr

/-- `ext.get("e164")` where `ext = cdr.get("externalNumber", {})`. -/
def CDR.extE164 (cdr : CDR) : Option String :=
  cdr.externalNumber.bind ExternalNumber.e164

/-- `ext.get("anonymous")`, falsy when absent. -/
def CDR.extAnonymous (cdr : CDR) : Bool :=
  (cdr.externalNumber.map ExternalNumber.anonymous).getD false

/-- `ext.get("localized")`. -/
def CDR.extLocalized (cdr : CDR) : Option String :=
  cdr.externalNumber.bind ExternalNumber.localized

/-- The completeness predicate (line 67, negated): the record is usable
once `ext.get("e164")` is truthy or `ext.get("anonymous")` is truthy. -/
def cdrComplete (cdr : CDR) : Bool :=
  pyTruthyS cdr.extE164 || cdr.extAnonymous

/-- The enrichment dict built by `enrich_data_from_cdr` (lines 71-95);
`Option` fields model keys that are set only conditionally. -/
structure Enrichment where
  callerNumber : String
  direction : String
  duration : Nat
  agentName : Option String
  calleeNumber : Option String
  recordingUrl : Option String
  datetime_str : String
  deriving DecidableEq, Repr

/-- The `result` dict assembled from a fetched CDR (lines 71-95). -/
def buildEnrichment (cdr : CDR) : Enrichment :=
  { callerNumber :=
      if cdr.extAnonymous then "anoniem"
      else pyOrSD cdr.extLocalized (pyOrSD cdr.extE164 "")
    direction := cdr.direction.getD "inbound"
    duration := cdr.duration.getD 0
    agentName := cdr.user.map (fun u => u.fullName.getD "")
    calleeNumber := cdr.internalNumber.map
      (fun inr => pyOrSD inr.localizedNumber (inr.number.getD ""))
    recordingUrl := cdr.callRecording.map (fun rec => rec.playUrl.getD "")
    datetime_str := cdr.date.getD "" }

/-- The retry loop body of `enrich_data_from_cdr` (lines 54-104):
`poging` is the current attempt index, the second argument the remaining
iterations of `range(3)`.  `fetch poging = none` models the HTTP call
raising (caught, loop continues); an incomplete record on a non-final
attempt (`poging < 2`) also continues. -/
def enrichGo (fetch : Nat → Option CDR) : Nat → Nat → Option Enrichment
  | _, 0 => none
  | poging, remaining + 1 =>
    match fetch poging with
    | none => enrichGo fetch (poging + 1) remaining
    | some cdr =>
      if cdrComplete cdr = false ∧ poging < 2 then
        enrichGo fetch (poging + 1) remaining
      else
        some (buildEnrichment cdr)

/-- `enrich_data_from_cdr` (lines 51-105): up to 3 attempts, `none`
models the final `return {}`. -/
def enrich_data_from_cdr (fetch : Nat → Option CDR) : Option Enrichment :=
  enrichGo fetch 0 3

/-- A CDR whose external number is neither populated nor anonymous: it
fails the completeness predicate. -/
def cdrIncompleteExample : CDR :=
  { externalNumber := some { e164 := none, anonymous := false, localized := none }
    direction := none
    duration := none
    user := none
    internalNumber := none
    callRecording := none
    date := none }

/-- C3 (counterexample) -- when every attempt yields a record failing the
completeness predicate, the fetcher does NOT return "not available": the
final attempt returns the incomplete record (with an empty caller
number) because the retry guard `poging < 2` exempts the last attempt. -/
theorem C3_incomplete_final_attempt_counterexample :
    cdrComplete cdrIncompleteExample = false
    ∧ enrich_data_from_cdr (fun _ => some cdrIncompleteExample)
      = some { callerNumber := "", direction := "inbound", duration := 0,
               agentName := none, calleeNumber := none, recordingUrl := none,
               datetime_str := "" } := by
  constructor
  · rfl
  · rfl

/-- C3 (amended) -- if every attempt errors, the fetcher returns "not
available"; and whenever the first two attempts each error or fetch an
incomplete record, a record fetched on the final attempt is returned
as-is — even when it is incomplete. -/
theorem C3_amended_fetcher_exhaustion (fetch : Nat → Option CDR) :
    ((∀ i, i < 3 → fetch i = none) → enrich_data_from_cdr fetch = none)
    ∧ (∀ cdr : CDR,
        (∀ i, i < 2 → fetch i = none
            ∨ ∃ c, fetch i = some c ∧ cdrComplete c = false) →
        fetch 2 = some cdr →
        enrich_data_from_cdr fetch = some (buildEnrichment cdr)) := by
  constructor
  · intro h
    have h0 := h 0 (by omega)
    have h1 := h 1 (by omega)
    have h2 := h 2 (by omega)
    simp [enrich_data_from_cdr, enrichGo, h0, h1, h2]
  · intro cdr hpre h2
    have step : ∀ i r, i < 2 →
        enrichGo fetch i (r + 1) = enrichGo fetch (i + 1) r := by
      intro i r hi
      rcases hpre i hi with hnone | ⟨c, hc, hcc⟩
      · simp [enrichGo, hnone]
      · simp [enrichGo, hc, hcc, hi]
    rw [enrich_data_from_cdr, step 0 2 (by omega), step 1 1 (by omega)]
    simp [enrichGo, h2]

/-- C3 witness: with a fetch that always returns the incomplete example
record, the first two attempts retry and the final attempt returns the
incomplete enrichment. -/
theorem C3_amended_fetcher_exhaustion_witness :
    enrich_data_from_cdr (fun _ => some cdrIncompleteExample)
      = some (buildEnrichment cdrIncompleteExample) :=
  (C3_amended_fetcher_exhaustion (fun _ => some cdrIncompleteExample)).2
    cdrIncompleteExample
    (fun _ _ => Or.inr ⟨cdrIncompleteExample, rfl, rfl⟩) rfl

/-! ### Activity Builder (`build_task`, lines 193-265) -/

/-- The raw `call-ended` webhook payload together with the keys that
`_process_callend` writes back into it; absent dictionary keys are
`none`. -/
structure CallEndEvent where
  id : Option String := none
  callId : Option String := none
  call_id : Option String := none
  direction : Option String := none
  duration : Option Nat := none
  callDuration : Option Nat := none
  call_duration : Option Nat := none
  callerNumber : Option String := none
  caller_number : Option String := none
  calleeNumber : Option String := none
  callee_number : Option String := none
  agentName : Option String := none
  agent_name : Option String := none
  cause : Option String := none
  datetime_str : Option String := none
  datetime : Option String := none
  recordingUrl : Option String := none
  callRecordingUrl : Option String := none
  deriving DecidableEq, Repr

/-- `data.get("id") or data.get("callId") or data.get("call_id", "")`,
the correlation-key extraction repeated at lines 208, 288 and 337. -/
def getCallId (id callId call_id : Option String) : String :=
  pyOrSD id (pyOrSD callId (call_id.getD ""))

/-- `CAUSE_LABELS` (lines 193-199). -/
def CAUSE_LABELS : List (String × String) :=
  [("OUTSIDE_OPERATION_TIMES", "Buiten openingstijden"),
   ("NO_ANSWER", "Niet opgenomen"),
   ("BUSY", "In gesprek"),
   ("REJECTED", "Geweigerd"),
   ("VOICEMAIL", "Voicemail")]

/-- Dictionary lookup in `CAUSE_LABELS`: `some` iff `cause in CAUSE_LABELS`,
and the value is `CAUSE_LABELS.get(cause, ...)`. -/
def causeLabel (cause : String) : Option String :=
  (CAUSE_LABELS.find? (fun p => p.1 == cause)).map Prod.snd

/-- `duration = call_data.get("duration") or call_data.get("callDuration")
or call_data.get("call_duration", 0)` (line 205). -/
def taskDuration (call_data : CallEndEvent) : Nat :=
  pyOrNatD call_data.duration
    (pyOrNatD call_data.callDuration (call_data.call_duration.getD 0))

/-- `caller` (line 206). -/
def taskCaller (call_data : CallEndEvent) : String :=
  pyOrSD call_data.callerNumber (call_data.caller_number.getD "onbekend")

/-- `callee` (line 207). -/
def taskCallee (call_data : CallEndEvent) : String :=
  pyOrSD call_data.calleeNumber (call_data.callee_number.getD "")

/-- `agent` (line 209). -/
def taskAgent (call_data : CallEndEvent) : String :=
  pyOrSD call_data.agentName (call_data.agent_name.getD "")

/-- `datetime_str = call_data.get("datetime_str", "") or
call_data.get("datetime", "")` (line 211). -/
def taskDatetime (call_data : CallEndEvent) : String :=
  pyOrSD call_data.datetime_str (call_data.datetime.getD "")

/-- `format_datetime_nl` (lines 39-48): the empty-string guard is the
source code; the ISO parsing, timezone conversion and Dutch rendering are
the `datetime`/`zoneinfo` libraries, abstracted as `fmtCore` (which also
absorbs the `except: return ""` branch). -/
def format_datetime_nl (fmtCore : String → String) (datetime_str : String) :
    String :=
  if datetime_str = "" then "" else fmtCore datetime_str

/-- The `activity_date` computation (lines 219-226): `toActivityDate`
abstracts the library parse (`none` models the swallowed exception). -/
def taskActivityDate (toActivityDate : String → Option String)
    (datetime_str : String) : Option String :=
  if datetime_str = "" then none else toActivityDate datetime_str

/-- `richting_nl` (line 213). -/
def richtingNl (call_data : CallEndEvent) : String :=
  if call_data.direction.getD "inbound" = "inbound" then "Inkomend"
  else "Uitgaand"

/-- `duur_str` (lines 214-216): minutes and seconds via `//` and `%`. -/
def duurStr (call_data : CallEndEvent) : String :=
  toString (taskDuration call_data / 60) ++ "m "
    ++ toString (taskDuration call_data % 60) ++ "s"

/-- `subject` (lines 228-239).  Each source branch appends
`f" {tijdstip}"` when `tijdstip` is non-empty, which is factored out
here. -/
def taskSubject (fmtCore : String → String) (call_data : CallEndEvent) :
    String :=
  let caller := taskCaller call_data
  let cause := call_data.cause.getD ""
  let tijdstip := format_datetime_nl fmtCore (taskDatetime call_data)
  let base :=
    if cause = "OUTSIDE_OPERATION_TIMES" then
      "Gemist (buiten openingstijden) - " ++ caller
    else if (causeLabel cause).isSome then
      "Gemist gesprek - " ++ caller
    else
      "Gesprek " ++ richtingNl call_data ++ " – Beantwoord"
  if tijdstip ≠ "" then base ++ " " ++ tijdstip else base

/-- `omschrijving_regels` (lines 241-251): the description lines, each
optional line guarded exactly as in the source. -/
def omschrijving_regels (call_data : CallEndEvent) : List String :=
  let caller := taskCaller call_data
  let callee := taskCallee call_data
  let agent := taskAgent call_data
  let cause := call_data.cause.getD ""
  ["Richting: " ++ richtingNl call_data, "Nummer: " ++ caller]
  ++ (if callee ≠ "" ∧ ¬ (callee = "onbekend" ∨ callee = "") then
        ["Gebeld: " ++ callee] else [])
  ++ ["Duur: " ++ duurStr call_data]
  ++ (if cause ≠ "" ∧ (causeLabel cause).isSome then
        ["Reden: " ++ (causeLabel cause).getD cause] else [])
  ++ (if agent ≠ "" then ["Medewerker: " ++ agent] else [])

/-- The Task dict written to Salesforce (lines 253-265). -/
structure SfTask where
  Subject : String
  Description : String
  Status : String
  CallDurationInSeconds : Nat
  CallObject : String
  TaskSubtype : String
  ActivityDate : Option String
  WhatId : Option String
  deriving DecidableEq, Repr

/-- `build_task` (lines 202-265). -/
def build_task (fmtCore : String → String)
    (toActivityDate : String → Option String)
    (call_data : CallEndEvent) (weborder_id : Option String) : SfTask :=
  { Subject := taskSubject fmtCore call_data
    Description := String.intercalate "\n" (omschrijving_regels call_data)
    Status := "Voltooid"
    CallDurationInSeconds := taskDuration call_data
    CallObject := getCallId call_data.id call_data.callId call_data.call_id
    TaskSubtype := "Call"
    ActivityDate := taskActivityDate toActivityDate (taskDatetime call_data)
    WhatId := if pyTruthyS weborder_id then weborder_id else none }

/-! ### C9: the optional description lines -/

theorem string_data_append (s t : String) : (s ++ t).data = s.data ++ t.data := by
  rcases s with ⟨ls⟩
  rcases t with ⟨lt⟩
  rfl

/-- Two strings built by appending to literals with different first
characters are never equal. -/
theorem append_head_ne {p q : String} {cp cq : Char} {tp tq : List Char}
    (hp : p.data = cp :: tp) (hq : q.data = cq :: tq) (hne : cp ≠ cq)
    (x y : String) : p ++ x ≠ q ++ y := by
  intro he
  have hd : (p ++ x).data = (q ++ y).data := congrArg String.data he
  rw [string_data_append, string_data_append, hp, hq] at hd
  exact hne (by injection hd)

/-- The `Reden:` segment of the description, re-expressed through the
label lookup: present iff the cause is a known label (the empty cause is
never a key of `CAUSE_LABELS`). -/
theorem reden_segment (cause : String) :
    (if cause ≠ "" ∧ (causeLabel cause).isSome then
        ["Reden: " ++ (causeLabel cause).getD cause] else [])
      = (match causeLabel cause with
         | some label => ["Reden: " ++ label]
         | none => []) := by
  rcases hcl : causeLabel cause with _ | label
  · simp [hcl]
  · have hne : cause ≠ "" := by
      intro h0
      subst h0
      rw [show causeLabel "" = none from rfl] at hcl
      exact Option.noConfusion hcl
    simp [hcl, hne]

/-- The description lines in their fixed order, with each optional
line guarded in normalized form. -/
theorem regels_shape (cd : CallEndEvent) :
    omschrijving_regels cd
      = ["Richting: " ++ richtingNl cd, "Nummer: " ++ taskCaller cd]
        ++ (if taskCallee cd ≠ "" ∧ taskCallee cd ≠ "onbekend" then
              ["Gebeld: " ++ taskCallee cd] else [])
        ++ ["Duur: " ++ duurStr cd]
        ++ (match causeLabel (cd.cause.getD "") with
            | some label => ["Reden: " ++ label]
            | none => [])
        ++ (if taskAgent cd ≠ "" then ["Medewerker: " ++ taskAgent cd] else []) := by
  rw [← reden_segment]
  simp only [omschrijving_regels]
  by_cases h1 : taskCallee cd = "" <;> by_cases h2 : taskCallee cd = "onbekend" <;>
    simp [h1, h2]

theorem gebeld_mem_iff (cd : CallEndEvent) :
    ("Gebeld: " ++ taskCallee cd) ∈ omschrijving_regels cd
      ↔ (taskCallee cd ≠ "" ∧ taskCallee cd ≠ "onbekend") := by
  have hR : ∀ x y : String, "Gebeld: " ++ x ≠ "Richting: " ++ y :=
    append_head_ne rfl rfl (by decide)
  have hN : ∀ x y : String, "Gebeld: " ++ x ≠ "Nummer: " ++ y :=
    append_head_ne rfl rfl (by decide)
  have hD : ∀ x y : String, "Gebeld: " ++ x ≠ "Duur: " ++ y :=
    append_head_ne rfl rfl (by decide)
  have hRe : ∀ x y : String, "Gebeld: " ++ x ≠ "Reden: " ++ y :=
    append_head_ne rfl rfl (by decide)
  have hM : ∀ x y : String, "Gebeld: " ++ x ≠ "Medewerker: " ++ y :=
    append_head_ne rfl rfl (by decide)
  rw [regels_shape]
  by_cases h1 : taskCallee cd ≠ "" ∧ taskCallee cd ≠ "onbekend"
  · rw [if_pos h1]
    simp [h1.1, h1.2]
  · rw [if_neg h1]
    rcases hcl : causeLabel (cd.cause.getD "") with _ | label
    · by_cases h3 : taskAgent cd ≠ ""
      · rw [if_pos h3]
        simp [hR, hN, hD, hRe, hM, h1]
      · rw [if_neg h3]
        simp [hR, hN, hD, hRe, hM, h1]
    · by_cases h3 : taskAgent cd ≠ ""
      · rw [if_pos h3]
        simp [hR, hN, hD, hRe, hM, h1]
      · rw [if_neg h3]
        simp [hR, hN, hD, hRe, hM, h1]

theorem medewerker_mem_iff (cd : CallEndEvent) :
    ("Medewerker: " ++ taskAgent cd) ∈ omschrijving_regels cd
      ↔ taskAgent cd ≠ "" := by
  have hR : ∀ x y : String, "Medewerker: " ++ x ≠ "Richting: " ++ y :=
    append_head_ne rfl rfl (by decide)
  have hN : ∀ x y : String, "Medewerker: " ++ x ≠ "Nummer: " ++ y :=
    append_head_ne rfl rfl (by decide)
  have hG : ∀ x y : String, "Medewerker: " ++ x ≠ "Gebeld: " ++ y :=
    append_head_ne rfl rfl (by decide)
  have hD : ∀ x y : String, "Medewerker: " ++ x ≠ "Duur: " ++ y :=
    append_head_ne rfl rfl (by decide)
  have hRe : ∀ x y : String, "Medewerker: " ++ x ≠ "Reden: " ++ y :=
    append_head_ne rfl rfl (by decide)
  rw [regels_shape]
  by_cases h3 : taskAgent cd ≠ ""
  · rw [if_pos h3]
    simp [h3]
  · rw [if_neg h3]
    by_cases h1 : taskCallee cd ≠ "" ∧ taskCallee cd ≠ "onbekend"
    · rcases hcl : causeLabel (cd.cause.getD "") with _ | label
      · rw [if_pos h1]
        simp [hR, hN, hG, hD, hRe, h3]
      · rw [if_pos h1]
        simp [hR, hN, hG, hD, hRe, h3]
    · rcases hcl : causeLabel (cd.cause.getD "") with _ | label
      · rw [if_neg h1]
        simp [hR, hN, hG, hD, hRe, h3]
      · rw [if_neg h1]
        simp [hR, hN, hG, hD, hRe, h3]

/-- A concrete call with a recording URL present. -/
def c9Event : CallEndEvent :=
  { callerNumber := some "0612345678"
    duration := some 65
    recordingUrl := some "https://recording.example/abc" }

/-- C9 (counterexample) -- a call whose data carries a recording link
still produces a description without any recording line: the builder
never renders the recording URL.  The description at this input is
exactly the three mandatory lines, and the URL is not an infix of it. -/
theorem C9_recording_line_counterexample :
    pyTruthyS c9Event.recordingUrl = true
    ∧ (build_task (fun _ => "") (fun _ => none) c9Event none).Description
      = "Richting: Inkomend\nNummer: 0612345678\nDuur: 1m 5s"
    ∧ ¬ "https://recording.example/abc".data <:+:
        (build_task (fun _ => "") (fun _ => none) c9Event none).Description.data := by
  refine ⟨rfl, rfl, ?_⟩
  decide

/-- C9 (amended) -- in the built description, the callee number and the
agent name each appear on their own line exactly when present, in the
fixed order richting, nummer, gebeld, duur, reden, medewerker; the
recording link is never part of the description (the built task does not
depend on the recording URL at all). -/
theorem C9_amended_optional_description_lines (fmtCore : String → String)
    (toAD : String → Option String) (call_data : CallEndEvent)
    (wo u : Option String) :
    (("Gebeld: " ++ taskCallee call_data) ∈ omschrijving_regels call_data
      ↔ (taskCallee call_data ≠ "" ∧ taskCallee call_data ≠ "onbekend"))
    ∧ (("Medewerker: " ++ taskAgent call_data) ∈ omschrijving_regels call_data
      ↔ taskAgent call_data ≠ "")
    ∧ omschrijving_regels call_data
      = ["Richting: " ++ richtingNl call_data, "Nummer: " ++ taskCaller call_data]
        ++ (if taskCallee call_data ≠ "" ∧ taskCallee call_data ≠ "onbekend" then
              ["Gebeld: " ++ taskCallee call_data] else [])
        ++ ["Duur: " ++ duurStr call_data]
        ++ (match causeLabel (call_data.cause.getD "") with
            | some label => ["Reden: " ++ label]
            | none => [])
        ++ (if taskAgent call_data ≠ "" then
              ["Medewerker: " ++ taskAgent call_data] else [])
    ∧ build_task fmtCore toAD { call_data with recordingUrl := u } wo
      = build_task fmtCore toAD { call_data with recordingUrl := none } wo :=
  ⟨gebeld_mem_iff call_data, medewerker_mem_iff call_data,
    regels_shape call_data, rfl⟩

/-! ### Correlation Key Index (`find_tasks_by_rinkel_id`, lines 181-190) -/

/-- A stored Task row as seen by the correlation lookup and the insights
update (`Id`, `CallObject`, `Description`). -/
structure TaskRecord where
  id : String
  callObject : String
  description : Option String
  deriving DecidableEq, Repr

/-- `find_tasks_by_rinkel_id` (lines 181-190): guard on the empty id,
then the `CallObject = \x7bescaped\x7d LIMIT 200` query (the
quote-escaping together with SOQL unquoting makes the store match the
raw identifier, so the modelled store compares `CallObject` with it
directly).  The second component counts store queries issued. -/
def find_tasks_by_rinkel_id (tasks : List TaskRecord)
    (rinkel_call_id : String) : List String × Nat :=
  if rinkel_call_id = "" then ([], 0)
  else
    (((tasks.filter (fun t => t.callObject == rinkel_call_id)).map
        TaskRecord.id).take 200, 1)

/-! ### Insights rendering (`_insights_lines`, lines 268-278) -/

/-- The value under the `topics` key: line 276 accepts both a list and a
plain string. -/
inductive TopicsVal where
  | list (l : List String)
  | str (s : String)
  deriving DecidableEq, Repr

/-- Python truthiness of the optional `topics` value (an empty list and
an empty string are falsy). -/
def topicsTruthy : Option TopicsVal → Bool
  | none => false
  | some (.list l) => !l.isEmpty
  | some (.str s) => s ≠ ""

/-- `", ".join(topics)` for a list, the raw string otherwise. -/
def topicsText : Option TopicsVal → String
  | none => ""
  | some (.list l) => String.intercalate ", " l
  | some (.str s) => s

/-- The insight fields read by `_insights_lines`. -/
structure InsightsPayload where
  summary : Option String := none
  sentiment : Option String := none
  topics : Option TopicsVal := none
  deriving DecidableEq, Repr

/-- `_insights_lines` (lines 268-278), the rendered insight block. -/
def insights_lines (insights : InsightsPayload) : String :=
  let lines :=
    (if pyTruthyS insights.summary then
        ["\n--- AI Samenvatting ---\n" ++ insights.summary.getD ""] else [])
    ++ (if pyTruthyS insights.sentiment then
        ["Sentiment: " ++ insights.sentiment.getD ""] else [])
    ++ (if topicsTruthy insights.topics then
        ["Onderwerpen: " ++ topicsText insights.topics] else [])
  String.intercalate "\n" lines

/-! ### Event Dispatcher: `call-insights` path (`webhook_callinsights`,
lines 332-360) -/

/-- The `call-insights` webhook payload: the identifier key variants,
the optional `insights` sub-dict (`none` models absent or empty, both
falsy), and the top-level dict itself viewed as an insight source, for
the `insights = data.get("insights") or data` fallback (line 338). -/
structure InsightsEvent where
  id : Option String := none
  callId : Option String := none
  call_id : Option String := none
  insights : Option InsightsPayload := none
  top : InsightsPayload := {}
  deriving Repr

/-- Line 338: `data.get("insights") or data`. -/
def effectiveInsights (data : InsightsEvent) : InsightsPayload :=
  match data.insights with
  | some p => p
  | none => data.top

/-- Line 352: the updated description — the insight block, then a blank
line and the previous description when one exists. -/
def nieuwe_beschrijving (extra_tekst huidige_beschrijving : String) :
    String :=
  extra_tekst
    ++ (if huidige_beschrijving ≠ "" then "\n\n" ++ huidige_beschrijving
        else "")

/-- The JSON status reported by the `call-insights` route. -/
inductive InsightsStatus where
  | ok (updated : Nat)
  | not_found
  deriving DecidableEq, Repr

/-- The update loop of `webhook_callinsights` (lines 349-354): the
per-id `sf.Task.get`/`sf.Task.update` round-trips are modelled as a map
over the stored tasks. -/
def updateTasksWithInsights (sf : List TaskRecord) (task_ids : List String)
    (extra_tekst : String) : List TaskRecord :=
  sf.map (fun t =>
    if t.id ∈ task_ids then
      { t with
          description := some
            (nieuwe_beschrijving extra_tekst (t.description.getD "")) }
    else t)

/-- `webhook_callinsights` (lines 332-360): look up tasks by correlation
key; when none match, report `not_found`; otherwise append the insight
block to the description of each matched task. -/
def webhook_callinsights (sf : List TaskRecord) (data : InsightsEvent) :
    List TaskRecord × InsightsStatus :=
  let rinkel_call_id := getCallId data.id data.callId data.call_id
  let task_ids := (find_tasks_by_rinkel_id sf rinkel_call_id).1
  if task_ids = [] then (sf, .not_found)
  else
    let extra_tekst := insights_lines (effectiveInsights data)
    (updateTasksWithInsights sf task_ids extra_tekst, .ok task_ids.length)

/-! ### Event Dispatcher: `call-ended` path (`_process_callend`,
lines 286-315) -/

/-- `data.update(cdr_data)` (line 292): every key the enrichment dict
carries overwrites the incoming value; keys it lacks are left alone. -/
def applyEnrichment (data : CallEndEvent) (e : Enrichment) : CallEndEvent :=
  { data with
    callerNumber := some e.callerNumber
    direction := some e.direction
    duration := some e.duration
    agentName := match e.agentName with
      | some a => some a
      | none => data.agentName
    calleeNumber := match e.calleeNumber with
      | some c => some c
      | none => data.calleeNumber
    recordingUrl := match e.recordingUrl with
      | some r => some r
      | none => data.recordingUrl
    datetime_str := some e.datetime_str }

/-- Lines 294-295: fall back to `callRecordingUrl` when no
`recordingUrl` is set. -/
def fixupRecordingUrl (data : CallEndEvent) : CallEndEvent :=
  if pyTruthyS data.recordingUrl = false ∧ pyTruthyS data.callRecordingUrl then
    { data with recordingUrl := data.callRecordingUrl }
  else data

/-- Lines 288-295: the event data after CDR enrichment (the enrichment
is skipped when the correlation key is empty or the fetch returned the
empty dict) and the recording-URL fixup. -/
def enrichedCallEndData (fetch : Nat → Option CDR) (data : CallEndEvent) :
    CallEndEvent :=
  let call_id := getCallId data.id data.callId data.call_id
  let data1 :=
    if call_id ≠ "" then
      match enrich_data_from_cdr fetch with
      | some e => applyEnrichment data e
      | none => data
    else data
  fixupRecordingUrl data1

/-- Line 300: `find_weborders_by_phone(sf, phone) if phone else []`,
evaluated on the `callerNumber` of the enriched data. -/
def matchedWebOrders (fetch : Nat → Option CDR)
    (query : String → List WebOrderRecord) (data : CallEndEvent) :
    List String :=
  let phone := (enrichedCallEndData fetch data).callerNumber.getD ""
  if phone ≠ "" then (find_weborders_by_phone query phone).1 else []

/-- `_process_callend` (lines 286-315): the list of Tasks created — one
unlinked Task when no WebOrder matches, otherwise one Task per matched
WebOrder. -/
def process_callend (fetch : Nat → Option CDR)
    (query : String → List WebOrderRecord) (fmtCore : String → String)
    (toActivityDate : String → Option String) (data : CallEndEvent) :
    List SfTask :=
  let enriched := enrichedCallEndData fetch data
  let weborder_ids := matchedWebOrders fetch query data
  if weborder_ids = [] then
    [build_task fmtCore toActivityDate enriched none]
  else
    weborder_ids.map
      (fun wo_id => build_task fmtCore toActivityDate enriched (some wo_id))

/-! ### C2, C7, C8, C10: dispatcher properties -/

/-- C2 (counterexample) -- a `call-insights` event whose correlation key
matches no activity does NOT go through a create-on-demand path: the
dispatcher leaves the store unchanged (creating nothing) and reports
`not_found`. -/
theorem C2_no_create_on_demand_counterexample :
    webhook_callinsights [] { id := some "CALL1", top := { summary := some "S" } }
      = ([], .not_found) := rfl

/-- C2 (amended) -- when the correlation key matches no existing
activity, `webhook_callinsights` only reports `not_found`: the stored
tasks are returned unchanged and no create of any kind is attempted. -/
theorem C2_amended_not_found_reports_only (sf : List TaskRecord)
    (data : InsightsEvent)
    (h : (find_tasks_by_rinkel_id sf
        (getCallId data.id data.callId data.call_id)).1 = []) :
    webhook_callinsights sf data = (sf, .not_found) := by
  simp [webhook_callinsights, h]

/-- C2 witness: a store holding one task for a different call. -/
theorem C2_amended_not_found_reports_only_witness :
    webhook_callinsights
      [{ id := "T1", callObject := "OTHER", description := some "D" }]
      { id := some "CALL1" }
      = ([{ id := "T1", callObject := "OTHER", description := some "D" }],
         .not_found) :=
  C2_amended_not_found_reports_only _ _ (by decide)

/-- The found-branch of `webhook_callinsights`. -/
theorem webhook_callinsights_found (sf : List TaskRecord)
    (data : InsightsEvent)
    (hne : (find_tasks_by_rinkel_id sf
        (getCallId data.id data.callId data.call_id)).1 ≠ []) :
    webhook_callinsights sf data
      = (updateTasksWithInsights sf
          (find_tasks_by_rinkel_id sf
            (getCallId data.id data.callId data.call_id)).1
          (insights_lines (effectiveInsights data)),
         .ok (find_tasks_by_rinkel_id sf
            (getCallId data.id data.callId data.call_id)).1.length) := by
  simp only [webhook_callinsights]
  rw [if_neg hne]

/-- C8 -- for a matched task, the updated description contains the
entire original description as a contiguous suffix part and starts with
the rendered insight block: the original text is never lost. -/
theorem C8_insights_update_preserves_original (sf : List TaskRecord)
    (data : InsightsEvent) (t : TaskRecord) (ht : t ∈ sf)
    (hm : t.id ∈ (find_tasks_by_rinkel_id sf
        (getCallId data.id data.callId data.call_id)).1) :
    ∃ t' ∈ (webhook_callinsights sf data).1,
      t'.id = t.id
      ∧ (∃ pre, (t'.description.getD "").data
          = pre ++ (t.description.getD "").data)
      ∧ (∃ suf, (t'.description.getD "").data
          = (insights_lines (effectiveInsights data)).data ++ suf) := by
  have hne : (find_tasks_by_rinkel_id sf
      (getCallId data.id data.callId data.call_id)).1 ≠ [] := by
    intro h0
    rw [h0] at hm
    exact List.not_mem_nil _ hm
  rw [webhook_callinsights_found sf data hne]
  refine ⟨{ t with
      description := some
        (nieuwe_beschrijving (insights_lines (effectiveInsights data))
          (t.description.getD "")) }, ?_, rfl, ?_, ?_⟩
  · refine List.mem_map.mpr ⟨t, ht, ?_⟩
    rw [if_pos hm]
  · by_cases hold : (t.description.getD "") = ""
    · refine ⟨(nieuwe_beschrijving (insights_lines (effectiveInsights data))
        (t.description.getD "")).data, ?_⟩
      rw [hold]
      simp
    · refine ⟨(insights_lines (effectiveInsights data)).data ++ "\n\n".data, ?_⟩
      show (nieuwe_beschrijving _ _).data = _
      unfold nieuwe_beschrijving
      rw [if_pos hold, string_data_append, string_data_append,
        List.append_assoc]
  · refine ⟨(if (t.description.getD "") ≠ "" then
        "\n\n" ++ (t.description.getD "") else "").data, ?_⟩
    show (nieuwe_beschrijving _ _).data = _
    unfold nieuwe_beschrijving
    rw [string_data_append]

/-- C8 witness: one stored task for the call, with existing description
`"Old"`, updated from an insights event. -/
theorem C8_insights_update_preserves_original_witness :
    ∃ t' ∈ (webhook_callinsights
        [{ id := "T1", callObject := "CALL1", description := some "Old" }]
        { id := some "CALL1", top := { summary := some "Sum" } }).1,
      t'.id = "T1"
      ∧ (∃ pre, (t'.description.getD "").data = pre ++ "Old".data)
      ∧ (∃ suf, (t'.description.getD "").data
          = (insights_lines (effectiveInsights
              { id := some "CALL1", top := { summary := some "Sum" } })).data
            ++ suf) :=
  C8_insights_update_preserves_original
    [{ id := "T1", callObject := "CALL1", description := some "Old" }]
    { id := some "CALL1", top := { summary := some "Sum" } }
    { id := "T1", callObject := "CALL1", description := some "Old" }
    (by simp) (by decide)

/-- C7 -- a `call-ended` event whose caller matches zero WebOrders
(including an empty caller) creates exactly one Task, and that Task has
no WebOrder link (`WhatId` unset). -/
theorem C7_unmatched_call_creates_one_unlinked_task
    (fetch : Nat → Option CDR) (query : String → List WebOrderRecord)
    (fmtCore : String → String) (toAD : String → Option String)
    (data : CallEndEvent)
    (h : matchedWebOrders fetch query data = []) :
    process_callend fetch query fmtCore toAD data
      = [build_task fmtCore toAD (enrichedCallEndData fetch data) none]
    ∧ ∀ t ∈ process_callend fetch query fmtCore toAD data,
        t.WhatId = none := by
  have heq : process_callend fetch query fmtCore toAD data
      = [build_task fmtCore toAD (enrichedCallEndData fetch data) none] := by
    simp [process_callend, h]
  refine ⟨heq, ?_⟩
  intro t htmem
  rw [heq, List.mem_singleton] at htmem
  rw [htmem]
  rfl

/-- C7 witness: a caller number matching an empty store — one unlinked
Task is created. -/
theorem C7_unmatched_call_creates_one_unlinked_task_witness :
    process_callend (fun _ => none) (fun _ => []) (fun _ => "")
        (fun _ => none) { callerNumber := some "0612345678" }
      = [build_task (fun _ => "") (fun _ => none)
          (enrichedCallEndData (fun _ => none)
            { callerNumber := some "0612345678" }) none]
    ∧ ∀ t ∈ process_callend (fun _ => none) (fun _ => []) (fun _ => "")
        (fun _ => none) { callerNumber := some "0612345678" },
        t.WhatId = none :=
  C7_unmatched_call_creates_one_unlinked_task
    (fun _ => none) (fun _ => []) (fun _ => "") (fun _ => none)
    { callerNumber := some "0612345678" } (by decide)

/-- C10 -- the correlation lookup with an empty call identifier returns
the empty list without issuing a store query, and a `call-insights`
event carrying no usable identifier always ends in the `not_found` path
with the store untouched. -/
theorem C10_empty_call_id_no_query (sf : List TaskRecord)
    (data : InsightsEvent)
    (h : getCallId data.id data.callId data.call_id = "") :
    find_tasks_by_rinkel_id sf "" = ([], 0)
    ∧ (find_tasks_by_rinkel_id sf
        (getCallId data.id data.callId data.call_id)).2 = 0
    ∧ webhook_callinsights sf data = (sf, .not_found) := by
  refine ⟨rfl, ?_, ?_⟩
  · rw [h]
    rfl
  · simp [webhook_callinsights, h, find_tasks_by_rinkel_id]

/-- C10 witness: an insights event with none of the identifier keys. -/
theorem C10_empty_call_id_no_query_witness :
    find_tasks_by_rinkel_id
      [{ id := "T1", callObject := "C1", description := some "D" }] ""
      = ([], 0)
    ∧ (find_tasks_by_rinkel_id
        [{ id := "T1", callObject := "C1", description := some "D" }]
        (getCallId none none none)).2 = 0
    ∧ webhook_callinsights
        [{ id := "T1", callObject := "C1", description := some "D" }] {}
      = ([{ id := "T1", callObject := "C1", description := some "D" }],
         .not_found) :=
  C10_empty_call_id_no_query
    [{ id := "T1", callObject := "C1", description := some "D" }] {} rfl

end RinkelSF
